import Mathlib

/-!
Shallow embedding of the Chat Session State Engine of the ChatConnect
repository (src/unnamed/part_000 and src/src/components/ChatApp.tsx; the
two files agree on all of the logic embedded here).  Pure state logic is
extracted from the React component: each handler becomes a function from
the session state (plus the clock values it reads) to a new session state.
-/

namespace ChatConnect

/-- Presence status of a participant, from the `User` interface
(`status: "online" | "offline" | "brb" | "busy"`). -/
inductive Status
  | online
  | offline
  | brb
  | busy
deriving DecidableEq

/-- Delivery state of a message (`status: "sent" | "delivered" | "read"`). -/
inductive DeliveryState
  | sent
  | delivered
  | read
deriving DecidableEq

/-- A chat participant, from the `User` interface of ChatApp. -/
structure User where
  id : String
  name : String
  avatar : String
  status : Status
  isTyping : Bool
deriving DecidableEq

/-- Message identifiers.  The code builds id strings in three distinct
formats: the seeded mock messages use `msg1` .. `msg8`; `handleSendMessage`
builds `msg-${Date.now()}-${Math.floor(Math.random()*1000)}`; the simulator
reply builds `msg-response-${Date.now()}`.  The three formats can never
collide as strings (the segment after the first dash is digits for a send
id and the word `response` for a reply id, and seed ids have no dash), so
they are embedded as a sum, keeping the numeric payloads. -/
inductive MsgId
  | seed (n : Nat)
  | sendId (t r : Nat)
  | responseId (t : Nat)
deriving DecidableEq

/-- A chat message, from the `Message` interface of ChatApp.  The
`reactions` object (`{ [userId: string]: string }`) is embedded as an
association list from participant id to emoji, in insertion order, matching
the key order of the JS object. -/
structure Message where
  id : MsgId
  senderId : String
  text : String
  timestamp : Nat
  reactions : List (String × String)
  status : DeliveryState
deriving DecidableEq

/-- The engine-relevant React state of ChatApp, gathered into one record:
`isMounted`, `currentUser`, `users`, `messages`, the parent `isTyping`
flag and its pending timeout, the search state (`searchResults`,
`currentSearchIndex`), and the status-throttle bookkeeping
(`lastStatusUpdateRef` and the pending `requestAnimationFrame` commit held
in `statusAnimationRef`). -/
structure ChatState where
  isMounted : Bool
  currentUser : Option User
  users : List User
  messages : List Message
  isTyping : Bool
  typingTimerPending : Bool
  searchResults : List Message
  currentSearchIndex : Int
  lastStatusUpdate : Nat
  pendingStatus : Option Status
deriving DecidableEq

/-! ## Reaction maps (JS object operations on `message.reactions`) -/

/-- Property lookup `reactions[userId]` on the reaction object. -/
def rLookup : List (String × String) → String → Option String
  | [], _ => none
  | (a, b) :: rest, k => if a = k then some b else rLookup rest k

/-- The JS `delete newReactions[currentUser.id]` step. -/
def removeReaction (reactions : List (String × String)) (uid : String) :
    List (String × String) :=
  reactions.filter (fun e => decide (e.1 ≠ uid))

/-- The JS assignment `newReactions[currentUser.id] = emoji`: replace the
value in place when the key exists, otherwise add the key at the end. -/
def setReaction : List (String × String) → String → String → List (String × String)
  | [], uid, emoji => [(uid, emoji)]
  | (a, b) :: rest, uid, emoji =>
      if a = uid then (a, emoji) :: rest else (a, b) :: setReaction rest uid emoji

/-- The toggle body inside `handleEmojiReaction`: if the participant
already reacted with exactly this emoji, delete the entry, otherwise
set/replace it. -/
def toggleReactions (reactions : List (String × String)) (uid emoji : String) :
    List (String × String) :=
  if rLookup reactions uid = some emoji then removeReaction reactions uid
  else setReaction reactions uid emoji

/-! ## Core handlers -/

/-- The `updateUserTypingStatus` handler: map over `users`, setting the
`isTyping` flag of the matching participant. -/
def updateUserTypingStatus (s : ChatState) (userId : String) (typing : Bool) :
    ChatState :=
  { s with
    users := s.users.map fun u =>
      if u.id = userId then { u with isTyping := typing } else u }

/-- Per-message step of `handleEmojiReaction`: the map body applied to each
message of the log. -/
def applyReaction (m : Message) (messageId : MsgId) (uid emoji : String) : Message :=
  if m.id = messageId then
    { m with reactions := toggleReactions m.reactions uid emoji }
  else m

/-- The `handleEmojiReaction` handler: no-op when no current user is set,
otherwise toggle the reaction of the current user on the matching message.
The scroll restoration it also schedules is modelled by `restoreScroll`
below. -/
def handleEmojiReaction (s : ChatState) (messageId : MsgId) (emoji : String) :
    ChatState :=
  match s.currentUser with
  | none => s
  | some cu =>
      { s with
        messages := s.messages.map fun m => applyReaction m messageId cu.id emoji }

/-- The message record built by `handleSendMessage`. -/
def newMessage (senderId text : String) (now rand : Nat) : Message :=
  { id := MsgId.sendId now rand
    senderId := senderId
    text := text
    timestamp := now
    reactions := []
    status := DeliveryState.sent }

/-- The `handleSendMessage` handler of ChatApp: guarded by
`!currentUser || !isMounted`; appends the new message, clears the pending
typing timeout and the parent `isTyping` flag, and clears the typing flag
of the sender in the roster.  `now` is `Date.now()` and `rand` is the
`Math.floor(Math.random() * 1000)` suffix of the generated id. -/
def handleSendMessage (s : ChatState) (now rand : Nat) (messageText : String) :
    ChatState :=
  match s.currentUser with
  | none => s
  | some cu =>
      if s.isMounted then
        updateUserTypingStatus
          { s with
            messages := s.messages ++ [newMessage cu.id messageText now rand]
            typingTimerPending := false
            isTyping := false }
          cu.id false
      else s

/-! ## Send path as seen by the caller -/

/-- Error taxonomy named by the specification for the send operation. -/
inductive SendError
  | validationError
deriving DecidableEq

/-- Leading-whitespace drop used to embed the JS `String.prototype.trim`. -/
def dropLeadingWs : List Char → List Char
  | [] => []
  | c :: cs => if c.isWhitespace then dropLeadingWs cs else c :: cs

/-- Character-list trim: drop leading whitespace, then trailing. -/
def trimChars (cs : List Char) : List Char :=
  ((dropLeadingWs ((dropLeadingWs cs).reverse)).reverse)

/-- Embedding of the JS `text.trim()`. -/
def jsTrim (str : String) : String :=
  String.mk (trimChars str.data)

/-- The full send path as the caller experiences it: the inner
`handleSendMessage` of the ChatInput component runs
`if (localInputMessage.trim() && currentUser) { onSendMessage(...) }`,
where `onSendMessage` is the outer `handleSendMessage` of ChatApp.  The
second component records the error the caller is given: the code contains
no throw, no error value and no notification on the guarded branch, so the
reported error is `none` on every path. -/
def sendFromInput (s : ChatState) (now rand : Nat) (text : String) :
    ChatState × Option SendError :=
  if jsTrim text ≠ "" ∧ s.currentUser.isSome then
    (handleSendMessage s now rand text, none)
  else (s, none)

/-! ## Status changes (`changeUserStatus` and its animation-frame commit) -/

/-- The `changeUserStatus` handler: no-op when no current user is set or
the requested status equals the current one; a request arriving less than
300ms after the last accepted change is dropped; otherwise the accept time
is recorded, any pending animation-frame commit is cancelled, and the new
status is left pending for the next frame. -/
def changeUserStatus (s : ChatState) (now : Nat) (status : Status) : ChatState :=
  match s.currentUser with
  | none => s
  | some cu =>
      if cu.status = status then s
      else if now - s.lastStatusUpdate < 300 then s
      else { s with lastStatusUpdate := now, pendingStatus := some status }

/-- The `requestAnimationFrame` callback scheduled by `changeUserStatus`:
commit the pending status to the current user and to the matching roster
entry, then clear the pending slot. -/
def statusFrameFire (s : ChatState) : ChatState :=
  match s.pendingStatus with
  | none => s
  | some st =>
      match s.currentUser with
      | none => { s with pendingStatus := none }
      | some cu =>
          { s with
            currentUser := some { cu with status := st }
            users := s.users.map fun u =>
              if u.id = cu.id then { u with status := st } else u
            pendingStatus := none }

/-! ## Search (`performSearch`) -/

/-- Whether the pattern occurs at the head of the character list. -/
def listStartsWith : List Char → List Char → Bool
  | _, [] => true
  | [], _ :: _ => false
  | c :: cs, p :: ps => c == p && listStartsWith cs ps

/-- Whether the pattern occurs contiguously anywhere in the character
list; embedding of the JS `String.prototype.includes`. -/
def listContainsSub : List Char → List Char → Bool
  | [], pat => pat.isEmpty
  | c :: cs, pat => listStartsWith (c :: cs) pat || listContainsSub cs pat

/-- The match predicate of `performSearch`:
`message.text.toLowerCase().includes(query.toLowerCase())`. -/
def textIncludes (hay pat : String) : Bool :=
  listContainsSub (hay.data.map Char.toLower) (pat.data.map Char.toLower)

/-- The `performSearch` handler: a query trimming to empty clears the
result list and sets the cursor to the sentinel -1 (no current result);
otherwise the log is filtered by the case-insensitive match and the cursor
is set to 0 when there is at least one result, -1 otherwise. -/
def performSearch (s : ChatState) (query : String) : ChatState :=
  if jsTrim query = "" then
    { s with searchResults := [], currentSearchIndex := -1 }
  else
    let results := s.messages.filter fun m => textIncludes m.text query
    { s with
      searchResults := results
      currentSearchIndex := if results.length > 0 then 0 else -1 }

/-! ## Response Simulator -/

/-- The fixed emoji set of ChatApp. -/
def emojis : List String := ["👍", "❤️", "😂", "😮", "😢", "😡"]

/-- The fixed phrase list of the simulator reply step. -/
def responses : List String :=
  ["That\x27s interesting! Tell me more.",
   "I agree with your point.",
   "I\x27m not sure I follow. Can you explain?",
   "Great idea!",
   "Let\x27s discuss this further in the meeting tomorrow.",
   "I\x27ll check with the team and get back to you.",
   "Thanks for the update!",
   "Could you share the documentation?"]

/-- The candidate filter of `simulateResponse`: participants other than
the current user whose status is online, in roster order. -/
def respondingCandidates (users : List User) (cuId : String) : List User :=
  users.filter fun u => decide (u.id ≠ cuId ∧ u.status = Status.online)

/-- The synchronous decision part of `simulateResponse`: respond only when
mounted, a current user is set, and `new Date().getSeconds() % 3 === 0`;
abort when no candidate is online; otherwise pick the candidate at index
`new Date().getMinutes() % respondingUsers.length`.  `second` is the
second of the current minute and `minuteOfHour` the minute of the current
hour, the two clock fields the code reads. -/
def simulateDecision (s : ChatState) (second minuteOfHour : Nat) : Option User :=
  match s.currentUser with
  | none => none
  | some cu =>
      if s.isMounted ∧ second % 3 = 0 then
        let cands := respondingCandidates s.users cu.id
        if cands.length = 0 then none
        else cands.get? (minuteOfHour % cands.length)
      else none

/-- Modelled from the spec: the specification states that candidate
selection indexes the candidate list with `minute_of_day % candidateCount`,
where the minute of day combines the hour and the minute.  The repository
reads only `getMinutes()`; this definition follows the words of the spec so
the two can be compared. -/
def specResponderIndex (hourOfDay minuteOfHour candidateCount : Nat) : Nat :=
  (hourOfDay * 60 + minuteOfHour) % candidateCount

/-- The 1000ms callback of `simulateResponse`: guarded only by
`if (!isMounted) return;`, then sets the typing flag of the chosen
responder. -/
def simTypingCallback (s : ChatState) (respUserId : String) : ChatState :=
  if s.isMounted then updateUserTypingStatus s respUserId true else s

/-- The 3000ms callback of `simulateResponse`: guarded only by
`if (!isMounted) return;`, then clears the responder typing flag and
appends the reply message, whose text indexes the phrase list with
`messages.length % responses.length` over the message list captured when
the send happened (`capturedLen`). -/
def simReplyCallback (s : ChatState) (now : Nat) (respUserId : String)
    (capturedLen : Nat) : ChatState :=
  if s.isMounted then
    let s1 := updateUserTypingStatus s respUserId false
    { s1 with
      messages := s1.messages ++
        [{ id := MsgId.responseId now
           senderId := respUserId
           text := responses.getD (capturedLen % responses.length) ""
           timestamp := now
           reactions := []
           status := DeliveryState.sent }] }
  else s

/-- The further 1500ms callback of `simulateResponse`: guarded only by
`if (!isMounted) return;`, then finds the most recent message of the
captured log whose sender is the captured current user, and toggles on it
the emoji at index `text.length % emojis.length` through
`handleEmojiReaction` (which keys the reaction by the current user of the
state it runs against). -/
def simReactionCallback (s : ChatState) (captured : List Message)
    (capturedUserId : String) : ChatState :=
  if s.isMounted then
    match captured.reverse.find? (fun m => decide (m.senderId = capturedUserId)) with
    | none => s
    | some um =>
        handleEmojiReaction s um.id (emojis.getD (um.text.length % emojis.length) "")
  else s

/-! ## Scroll restoration (`restoreScroll` inside `handleEmojiReaction`) -/

/-- The `restoreScroll` closure of `handleEmojiReaction`: the scroll offset
written back is `prevScrollPosition + (newScrollHeight - prevScrollHeight)`.
The code schedules the same assignment at 0, 10, 50 and 100ms; every retry
writes this same expression, so the final restored offset is its value at
the settled content height. -/
def restoreScroll (prevScrollPosition prevScrollHeight newScrollHeight : Int) : Int :=
  prevScrollPosition + (newScrollHeight - prevScrollHeight)

/-! ## Event sequences of sends and simulator replies (for the log invariant) -/

/-- An append event of the session: a local send (`handleSendMessage`) or a
simulator reply callback, each carrying the `Date.now()` value it reads. -/
inductive SimEvent
  | localSend (now rand : Nat) (text : String)
  | simReply (now : Nat) (respUserId : String) (capturedLen : Nat)
deriving DecidableEq

/-- The clock value an event reads. -/
def evTime : SimEvent → Nat
  | .localSend now _ _ => now
  | .simReply now _ _ => now

/-- Apply one event to the session state. -/
def applyEvent (s : ChatState) (e : SimEvent) : ChatState :=
  match e with
  | .localSend now rand text => handleSendMessage s now rand text
  | .simReply now respUserId capturedLen => simReplyCallback s now respUserId capturedLen

/-- Run a sequence of events from a state. -/
def runEvents (s : ChatState) (es : List SimEvent) : ChatState :=
  es.foldl applyEvent s

/-- The id list of the log. -/
def msgIds (s : ChatState) : List MsgId := s.messages.map Message.id

/-- The creation-timestamp list of the log. -/
def msgTimes (s : ChatState) : List Nat := s.messages.map Message.timestamp

/-- The clock payload of an id lies strictly below `t` (trivial for seeded
ids, which use a distinct format). -/
def idTimeLt (i : MsgId) (t : Nat) : Prop :=
  match i with
  | .seed _ => True
  | .sendId t2 _ => t2 < t
  | .responseId t2 => t2 < t

/-- The clock payload of an id equals `t` (never holds of seeded ids). -/
def idTimeEq (i : MsgId) (t : Nat) : Prop :=
  match i with
  | .seed _ => False
  | .sendId t2 _ => t2 = t
  | .responseId t2 => t2 = t

/-! ## Concrete fixtures used by witnesses and counterexamples -/

/-- Concrete local participant (as built by `handleLoginSubmit`). -/
def danaUser : User :=
  { id := "d1", name := "Dana", avatar := "a", status := Status.online, isTyping := true }

/-- Concrete simulated participant. -/
def bobUser : User :=
  { id := "b1", name := "Bob", avatar := "a", status := Status.online, isTyping := false }

/-- Concrete authenticated session state. -/
def baseState : ChatState :=
  { isMounted := true
    currentUser := some danaUser
    users := [danaUser, bobUser]
    messages := []
    isTyping := true
    typingTimerPending := true
    searchResults := []
    currentSearchIndex := -1
    lastStatusUpdate := 0
    pendingStatus := none }

/-! ## Theorems -/

/-- C1: with a local participant set (and the component mounted, which
holds of every state that can have a local participant, since
`handleLoginSubmit` is guarded by `isMounted`), a send of a text whose
trim is non-empty appends exactly one message carrying exactly that text,
`deliveryState = sent` and an empty reaction map; the log grows by exactly
one with the existing messages untouched and in order, and the typing flag
of the sender is cleared in the roster. -/
theorem send_appends_one_message (s : ChatState) (now rand : Nat) (text : String)
    (cu : User) (hcu : s.currentUser = some cu) (hm : s.isMounted = true)
    (_ht : jsTrim text ≠ "") :
    ∃ m : Message,
      (handleSendMessage s now rand text).messages = s.messages ++ [m] ∧
      m.text = text ∧ m.status = DeliveryState.sent ∧ m.reactions = [] ∧
      (handleSendMessage s now rand text).messages.length = s.messages.length + 1 ∧
      ∀ u ∈ (handleSendMessage s now rand text).users, u.id = cu.id → u.isTyping = false := by
  have heq : handleSendMessage s now rand text =
      updateUserTypingStatus
        { s with
          messages := s.messages ++ [newMessage cu.id text now rand]
          typingTimerPending := false
          isTyping := false } cu.id false := by
    simp [handleSendMessage, hcu, hm]
  refine ⟨newMessage cu.id text now rand, ?_, rfl, rfl, rfl, ?_, ?_⟩
  · rw [heq]; rfl
  · rw [heq]
    simp [updateUserTypingStatus]
  · intro u hu hid
    rw [heq] at hu
    simp only [updateUserTypingStatus, List.mem_map] at hu
    obtain ⟨v, hv, hvu⟩ := hu
    by_cases h : v.id = cu.id
    · rw [if_pos h] at hvu
      rw [← hvu]
    · rw [if_neg h] at hvu
      rw [← hvu] at hid
      exact absurd hid h

/-- Witness for C1 at a concrete state and text. -/
theorem send_appends_one_message_witness :
    baseState.currentUser = some danaUser ∧ baseState.isMounted = true ∧
    jsTrim "hi" ≠ "" ∧
    ∃ m : Message,
      (handleSendMessage baseState 5 7 "hi").messages = baseState.messages ++ [m] ∧
      m.text = "hi" ∧ m.status = DeliveryState.sent ∧ m.reactions = [] ∧
      (handleSendMessage baseState 5 7 "hi").messages.length =
        baseState.messages.length + 1 ∧
      ∀ u ∈ (handleSendMessage baseState 5 7 "hi").users,
        u.id = danaUser.id → u.isTyping = false :=
  ⟨rfl, rfl, by decide,
    send_appends_one_message baseState 5 7 "hi" danaUser rfl rfl (by decide)⟩

/-- C2 counterexample: at a concrete authenticated state and the
whitespace text, the send path leaves the state unchanged but reports
nothing to the caller: the guard of the input component silently skips the
send, no `ValidationError` value exists anywhere on the path, so the part
of the claim that says a `ValidationError` is reported synchronously is
false at this input. -/
theorem send_empty_reports_nothing_cex :
    (sendFromInput baseState 5 7 "   ").1 = baseState ∧
    (sendFromInput baseState 5 7 "   ").2 ≠ some SendError.validationError ∧
    (sendFromInput baseState 5 7 "   ").2 = none := by decide

/-- C2 amended: for every input text trimming to empty, and for every call
made with no local participant set, the send path leaves the whole session
state unchanged and surfaces nothing: the failure is a silent no-op rather
than a reported `ValidationError`. -/
theorem send_invalid_silent_noop (s : ChatState) (now rand : Nat) (text : String)
    (h : jsTrim text = "" ∨ s.currentUser = none) :
    sendFromInput s now rand text = (s, none) := by
  rw [sendFromInput, if_neg]
  rintro ⟨h1, h2⟩
  rcases h with h | h
  · exact h1 h
  · rw [h] at h2
    simp at h2

/-- Witness for C2 at a concrete state and whitespace text. -/
theorem send_invalid_silent_noop_witness :
    (jsTrim "   " = "" ∨ baseState.currentUser = none) ∧
    sendFromInput baseState 5 7 "   " = (baseState, none) :=
  ⟨Or.inl (by decide),
    send_invalid_silent_noop baseState 5 7 "   " (Or.inl (by decide))⟩

/-! ## Lemmas on the reaction-map operations -/

/-- Lookup after deletion: the deleted key reads `none`, every other key is
unchanged. -/
theorem rLookup_removeReaction (R : List (String × String)) (uid k : String) :
    rLookup (removeReaction R uid) k = if k = uid then none else rLookup R k := by
  induction R with
  | nil => simp [removeReaction, rLookup]
  | cons e rest ih =>
      obtain ⟨a, b⟩ := e
      by_cases hau : a = uid <;> by_cases hk : k = uid <;> by_cases hak : a = k <;>
        simp_all [removeReaction, rLookup, List.filter_cons]

/-- Lookup after assignment at the assigned key. -/
theorem rLookup_setReaction_self (R : List (String × String)) (uid e : String) :
    rLookup (setReaction R uid e) uid = some e := by
  induction R with
  | nil => simp [setReaction, rLookup]
  | cons p rest ih =>
      obtain ⟨a, b⟩ := p
      by_cases h : a = uid <;> simp_all [setReaction, rLookup]

/-- Lookup after assignment at any other key. -/
theorem rLookup_setReaction_other (R : List (String × String)) (uid e k : String)
    (hk : k ≠ uid) :
    rLookup (setReaction R uid e) k = rLookup R k := by
  have huk : uid ≠ k := fun h => hk h.symm
  induction R with
  | nil => simp [setReaction, rLookup, huk]
  | cons p rest ih =>
      obtain ⟨a, b⟩ := p
      by_cases h : a = uid
      · subst h
        simp [setReaction, rLookup, huk]
      · by_cases hak : a = k <;> simp [setReaction, rLookup, h, hak, hk, ih]

/-- Toggling the same emoji twice restores the reaction map (as a map)
when the participant previously had no reaction or exactly this emoji. -/
theorem toggleReactions_twice_restore (R : List (String × String)) (uid emoji : String)
    (h : rLookup R uid = none ∨ rLookup R uid = some emoji) :
    ∀ k, rLookup (toggleReactions (toggleReactions R uid emoji) uid emoji) k
      = rLookup R k := by
  intro k
  rcases h with h | h
  · have hcond : ¬ (rLookup R uid = some emoji) := by rw [h]; simp
    have h1 : toggleReactions R uid emoji = setReaction R uid emoji := by
      rw [toggleReactions, if_neg hcond]
    have h2 : toggleReactions (setReaction R uid emoji) uid emoji
        = removeReaction (setReaction R uid emoji) uid := by
      rw [toggleReactions, if_pos (rLookup_setReaction_self R uid emoji)]
    rw [h1, h2, rLookup_removeReaction]
    by_cases hk : k = uid
    · rw [if_pos hk, hk, h]
    · rw [if_neg hk, rLookup_setReaction_other R uid emoji k hk]
  · have h1 : toggleReactions R uid emoji = removeReaction R uid := by
      rw [toggleReactions, if_pos h]
    have hnone : rLookup (removeReaction R uid) uid = none := by
      rw [rLookup_removeReaction]
      simp
    have h2 : toggleReactions (removeReaction R uid) uid emoji
        = setReaction (removeReaction R uid) uid emoji := by
      rw [toggleReactions, if_neg]
      rw [hnone]
      simp
    rw [h1, h2]
    by_cases hk : k = uid
    · rw [hk, rLookup_setReaction_self, h]
    · rw [rLookup_setReaction_other _ _ _ _ hk, rLookup_removeReaction, if_neg hk]

/-- Toggling an emoji twice when the participant previously held a
different reaction removes the entry: the first toggle replaces, the
second deletes. -/
theorem toggleReactions_twice_replace (R : List (String × String)) (uid emoji y : String)
    (hy : rLookup R uid = some y) (hne : y ≠ emoji) :
    rLookup (toggleReactions (toggleReactions R uid emoji) uid emoji) uid = none ∧
    ∀ k, k ≠ uid →
      rLookup (toggleReactions (toggleReactions R uid emoji) uid emoji) k
        = rLookup R k := by
  have hcond : ¬ (rLookup R uid = some emoji) := by
    rw [hy]
    simp [hne]
  have h1 : toggleReactions R uid emoji = setReaction R uid emoji := by
    rw [toggleReactions, if_neg hcond]
  have h2 : toggleReactions (setReaction R uid emoji) uid emoji
      = removeReaction (setReaction R uid emoji) uid := by
    rw [toggleReactions, if_pos (rLookup_setReaction_self R uid emoji)]
  constructor
  · rw [h1, h2, rLookup_removeReaction]
    simp
  · intro k hk
    rw [h1, h2, rLookup_removeReaction, if_neg hk,
      rLookup_setReaction_other _ _ _ _ hk]

/-- The reaction handler never changes the current user. -/
theorem handleEmojiReaction_currentUser (s : ChatState) (mid : MsgId) (emoji : String) :
    (handleEmojiReaction s mid emoji).currentUser = s.currentUser := by
  cases h : s.currentUser <;> simp [handleEmojiReaction, h]

/-- Message list of one application of the reaction handler with a current
user set. -/
theorem handleEmojiReaction_msgs (s : ChatState) (cu : User) (mid : MsgId)
    (emoji : String) (hcu : s.currentUser = some cu) :
    (handleEmojiReaction s mid emoji).messages
      = s.messages.map fun m => applyReaction m mid cu.id emoji := by
  simp [handleEmojiReaction, hcu]

/-- The double application of `handleEmojiReaction` acts messagewise as a
double toggle on the matching message. -/
theorem handleEmojiReaction_twice_messages (s : ChatState) (cu : User) (mid : MsgId)
    (emoji : String) (hcu : s.currentUser = some cu) :
    (handleEmojiReaction (handleEmojiReaction s mid emoji) mid emoji).messages
      = s.messages.map fun m =>
          if m.id = mid then
            { m with reactions :=
                toggleReactions (toggleReactions m.reactions cu.id emoji) cu.id emoji }
          else m := by
  have hcu2 : (handleEmojiReaction s mid emoji).currentUser = some cu := by
    rw [handleEmojiReaction_currentUser, hcu]
  rw [handleEmojiReaction_msgs _ cu _ _ hcu2, handleEmojiReaction_msgs _ cu _ _ hcu,
    List.map_map]
  apply List.map_congr_left
  intro m _
  by_cases h : m.id = mid <;> simp [applyReaction, h]

/-- Fixture message holding a prior reaction of the local user. -/
def heartMsg : Message :=
  { id := MsgId.seed 1
    senderId := "b1"
    text := "hey"
    timestamp := 10
    reactions := [("d1", "❤️")]
    status := DeliveryState.sent }

/-- Fixture state whose log holds `heartMsg`. -/
def reactState : ChatState := { baseState with messages := [heartMsg] }

/-- C3 counterexample: the local participant d1 already reacted with the
heart on the message; toggling the thumb twice does not restore the heart
but leaves the participant with no reaction at all, so the round trip does
not restore the prior reaction map in the case where a different reaction
was held. -/
theorem toggle_toggle_cex :
    ((handleEmojiReaction (handleEmojiReaction reactState (MsgId.seed 1) "👍")
        (MsgId.seed 1) "👍").messages.map fun m => rLookup m.reactions "d1") = [none] ∧
    (reactState.messages.map fun m => rLookup m.reactions "d1") = [some "❤️"] := by
  decide

/-- C3 amended: toggling the same emoji twice restores the exact prior
reaction map of the message when the participant previously had no
reaction there or had reacted with exactly that emoji; when the
participant previously held a different reaction, the double toggle
instead removes their entry (first toggle replaces, second deletes),
leaving every other key unchanged.  Messages other than the targeted one
are untouched. -/
theorem toggle_toggle_reaction_map (s : ChatState) (cu : User) (mid : MsgId)
    (emoji : String) (hcu : s.currentUser = some cu) :
    ∀ m2 ∈ (handleEmojiReaction (handleEmojiReaction s mid emoji) mid emoji).messages,
      ∃ m ∈ s.messages,
        (m.id ≠ mid → m2 = m) ∧
        (m.id = mid →
          ((rLookup m.reactions cu.id = none ∨ rLookup m.reactions cu.id = some emoji) →
            ∀ k, rLookup m2.reactions k = rLookup m.reactions k) ∧
          (∀ y, rLookup m.reactions cu.id = some y → y ≠ emoji →
            rLookup m2.reactions cu.id = none ∧
            ∀ k, k ≠ cu.id → rLookup m2.reactions k = rLookup m.reactions k)) := by
  intro m2 hm2
  rw [handleEmojiReaction_twice_messages s cu mid emoji hcu] at hm2
  simp only [List.mem_map] at hm2
  obtain ⟨m, hm, hm2eq⟩ := hm2
  refine ⟨m, hm, ?_, ?_⟩
  · intro hneq
    rw [← hm2eq, if_neg hneq]
  · intro heq
    rw [← hm2eq, if_pos heq]
    constructor
    · intro habs k
      exact toggleReactions_twice_restore m.reactions cu.id emoji habs k
    · intro y hy hne
      exact toggleReactions_twice_replace m.reactions cu.id emoji y hy hne

/-- Witness for the amended C3 at a concrete state. -/
theorem toggle_toggle_reaction_map_witness :
    reactState.currentUser = some danaUser ∧
    ∀ m2 ∈ (handleEmojiReaction (handleEmojiReaction reactState (MsgId.seed 1) "👍")
        (MsgId.seed 1) "👍").messages,
      ∃ m ∈ reactState.messages,
        (m.id ≠ MsgId.seed 1 → m2 = m) ∧
        (m.id = MsgId.seed 1 →
          ((rLookup m.reactions danaUser.id = none ∨
              rLookup m.reactions danaUser.id = some "👍") →
            ∀ k, rLookup m2.reactions k = rLookup m.reactions k) ∧
          (∀ y, rLookup m.reactions danaUser.id = some y → y ≠ "👍" →
            rLookup m2.reactions danaUser.id = none ∧
            ∀ k, k ≠ danaUser.id → rLookup m2.reactions k = rLookup m.reactions k)) :=
  ⟨rfl, toggle_toggle_reaction_map reactState danaUser (MsgId.seed 1) "👍" rfl⟩

/-- Fixture: post-logout state (local participant cleared by
`handleLogout`), component still mounted, roster still holding the
simulated participant. -/
def loggedOutState : ChatState :=
  { baseState with currentUser := none, users := [bobUser] }

/-- C4 counterexample: after logout (no local participant set, component
still mounted) the fired 1000ms typing callback does mutate state: it sets
the typing flag of the responder, because the delayed callbacks are
guarded only by `if (!isMounted) return;` and never re-check that a local
participant is still present. -/
theorem sim_callback_after_logout_cex :
    loggedOutState.currentUser = none ∧
    simTypingCallback loggedOutState "b1" ≠ loggedOutState := by decide

/-- C4 amended: every delayed simulator callback (typing at 1000ms, reply
at 3000ms, reaction at a further 1500ms) checks whether the component is
still mounted and performs no state mutation when it is not.  Presence of
a local participant is not re-checked: after a logout that leaves the
component mounted, the fired callbacks do mutate state. -/
theorem sim_callbacks_guard_on_mount (s : ChatState) (h : s.isMounted = false) :
    (∀ r, simTypingCallback s r = s) ∧
    (∀ now r len, simReplyCallback s now r len = s) ∧
    (∀ cap cid, simReactionCallback s cap cid = s) := by
  refine ⟨fun r => ?_, fun now r len => ?_, fun cap cid => ?_⟩ <;>
    simp [simTypingCallback, simReplyCallback, simReactionCallback, h]

/-- Fixture: unmounted state. -/
def unmountedState : ChatState := { baseState with isMounted := false }

/-- Witness for the amended C4 at a concrete unmounted state. -/
theorem sim_callbacks_guard_on_mount_witness :
    unmountedState.isMounted = false ∧
    ((∀ r, simTypingCallback unmountedState r = unmountedState) ∧
     (∀ now r len, simReplyCallback unmountedState now r len = unmountedState) ∧
     (∀ cap cid, simReactionCallback unmountedState cap cid = unmountedState)) :=
  ⟨rfl, sim_callbacks_guard_on_mount unmountedState rfl⟩

/-- C5: a status request equal to the current status is a no-op; a request
arriving less than 300ms after the previously accepted change is dropped
entirely, leaving the whole state (including the throttle bookkeeping and
the pending frame) unchanged; a differing request arriving once the 300ms
window has reopened is accepted (the accept time is recorded) and the next
animation-frame tick commits the new status to the current user. -/
theorem status_throttle (s : ChatState) (cu : User) (now : Nat) (st : Status)
    (hcu : s.currentUser = some cu) :
    (cu.status = st → changeUserStatus s now st = s) ∧
    (cu.status ≠ st → now - s.lastStatusUpdate < 300 →
      changeUserStatus s now st = s) ∧
    (cu.status ≠ st → 300 ≤ now - s.lastStatusUpdate →
      (changeUserStatus s now st).lastStatusUpdate = now ∧
      (changeUserStatus s now st).pendingStatus = some st ∧
      (statusFrameFire (changeUserStatus s now st)).currentUser
        = some { cu with status := st }) := by
  refine ⟨?_, ?_, ?_⟩
  · intro h
    simp [changeUserStatus, hcu, h]
  · intro h hlt
    simp [changeUserStatus, hcu, h, hlt]
  · intro h hge
    have hnlt : ¬ (now - s.lastStatusUpdate < 300) := not_lt.mpr hge
    have heq : changeUserStatus s now st
        = { s with lastStatusUpdate := now, pendingStatus := some st } := by
      simp [changeUserStatus, hcu, h, hnlt]
    rw [heq]
    refine ⟨rfl, rfl, ?_⟩
    simp [statusFrameFire, hcu]

/-- Witness for C5 at a concrete state: a busy request 1000ms after the
last accepted change. -/
theorem status_throttle_witness :
    baseState.currentUser = some danaUser ∧
    ((danaUser.status = Status.busy →
        changeUserStatus baseState 1000 Status.busy = baseState) ∧
     (danaUser.status ≠ Status.busy → 1000 - baseState.lastStatusUpdate < 300 →
        changeUserStatus baseState 1000 Status.busy = baseState) ∧
     (danaUser.status ≠ Status.busy → 300 ≤ 1000 - baseState.lastStatusUpdate →
        (changeUserStatus baseState 1000 Status.busy).lastStatusUpdate = 1000 ∧
        (changeUserStatus baseState 1000 Status.busy).pendingStatus
          = some Status.busy ∧
        (statusFrameFire (changeUserStatus baseState 1000 Status.busy)).currentUser
          = some { danaUser with status := Status.busy })) :=
  ⟨rfl, status_throttle baseState danaUser 1000 Status.busy rfl⟩

/-- C6 amended: with the component mounted and a local participant set (as
on every local send), the simulator responds exactly when the wall-clock
second satisfies `second % 3 = 0` and at least one participant other than
the local user is online; when it responds, the responder is the candidate
at index `minuteOfHour % candidateCount` in the order-stable online
candidate list, where `minuteOfHour` is the `getMinutes()` value (the
minute within the hour, not the minute of the day); with an empty
candidate list the cycle aborts with no responder. -/
theorem simulator_decision_rule (s : ChatState) (cu : User) (second minuteOfHour : Nat)
    (hm : s.isMounted = true) (hcu : s.currentUser = some cu) :
    (simulateDecision s second minuteOfHour ≠ none ↔
      second % 3 = 0 ∧ respondingCandidates s.users cu.id ≠ []) ∧
    (second % 3 = 0 → respondingCandidates s.users cu.id ≠ [] →
      simulateDecision s second minuteOfHour
        = (respondingCandidates s.users cu.id).get?
            (minuteOfHour % (respondingCandidates s.users cu.id).length)) := by
  have hdef : simulateDecision s second minuteOfHour =
      if s.isMounted ∧ second % 3 = 0 then
        (if (respondingCandidates s.users cu.id).length = 0 then none
         else (respondingCandidates s.users cu.id).get?
            (minuteOfHour % (respondingCandidates s.users cu.id).length))
      else none := by
    simp [simulateDecision, hcu]
  constructor
  · rw [hdef]
    by_cases h3 : second % 3 = 0
    · by_cases hc : respondingCandidates s.users cu.id = []
      · simp [hm, h3, hc]
      · have hlen : (respondingCandidates s.users cu.id).length ≠ 0 := by
          simpa [List.length_eq_zero] using hc
        have hlt : minuteOfHour % (respondingCandidates s.users cu.id).length <
            (respondingCandidates s.users cu.id).length :=
          Nat.mod_lt _ (Nat.pos_of_ne_zero hlen)
        simp [hm, h3, hc, hlen, List.get?_eq_get hlt]
        exact hlt
    · simp [hm, h3]
  · intro h3 hc
    have hlen : (respondingCandidates s.users cu.id).length ≠ 0 := by
      simpa [List.length_eq_zero] using hc
    rw [hdef]
    simp [hm, h3, hlen]

/-- Simulated online participant number `n`. -/
def simU (n : Nat) : User :=
  { id := "s" ++ toString n
    name := "S" ++ toString n
    avatar := "a"
    status := Status.online
    isTyping := false }

/-- Fixture state with seven online simulated participants besides the
local user. -/
def simState7 : ChatState :=
  { baseState with
    users := [danaUser, simU 1, simU 2, simU 3, simU 4, simU 5, simU 6, simU 7] }

/-- C6 counterexample: at wall-clock 01:00:00 (hour of day 1, minute of
hour 0, second 0) with seven online candidates, the code reads
`getMinutes()` and picks the candidate at index `0 % 7 = 0`, while the
minute-of-day formula of the claim names index `60 % 7 = 4`; the two
indices hold different participants, so the responder is not the candidate
at index `minute_of_day % candidateCount`. -/
theorem simulator_minute_of_day_cex :
    simulateDecision simState7 0 0 = some (simU 1) ∧
    (respondingCandidates simState7.users danaUser.id).length = 7 ∧
    specResponderIndex 1 0 7 = 4 ∧
    (respondingCandidates simState7.users danaUser.id).get?
      (specResponderIndex 1 0 7) = some (simU 5) ∧
    simU 1 ≠ simU 5 := by decide

/-- Witness for the amended C6 at the concrete seven-candidate state. -/
theorem simulator_decision_rule_witness :
    simState7.isMounted = true ∧ simState7.currentUser = some danaUser ∧
    ((simulateDecision simState7 0 0 ≠ none ↔
        0 % 3 = 0 ∧ respondingCandidates simState7.users danaUser.id ≠ []) ∧
     (0 % 3 = 0 → respondingCandidates simState7.users danaUser.id ≠ [] →
        simulateDecision simState7 0 0
          = (respondingCandidates simState7.users danaUser.id).get?
              (0 % (respondingCandidates simState7.users danaUser.id).length))) :=
  ⟨rfl, rfl, simulator_decision_rule simState7 danaUser 0 0 rfl rfl⟩

/-- Head of a filtered list is its first satisfying element. -/
theorem head?_filter_eq_find? (p : Message → Bool) (l : List Message) :
    (l.filter p).head? = l.find? p := by
  induction l with
  | nil => rfl
  | cons a t ih =>
      by_cases h : p a
      · simp [List.filter_cons, h, List.find?_cons_of_pos _ h]
      · simp [List.filter_cons, h, List.find?_cons_of_neg _ h, ih]

/-- C7: a query trimming to empty clears the results and resets the cursor
to the sentinel -1 (no current result, distinct from index 0), whatever
the prior search state was; for any other query the result set consists
exactly of the messages whose text contains the query case-insensitively,
in log order; when that set is non-empty the cursor starts at 0, and the
first result is the first matching message of the log. -/
theorem search_rules (s : ChatState) (q : String) :
    (jsTrim q = "" → (performSearch s q).searchResults = [] ∧
      (performSearch s q).currentSearchIndex = -1) ∧
    (jsTrim q ≠ "" →
      (∀ m, m ∈ (performSearch s q).searchResults ↔
        m ∈ s.messages ∧ textIncludes m.text q = true) ∧
      ((performSearch s q).searchResults ≠ [] →
        (performSearch s q).currentSearchIndex = 0) ∧
      (performSearch s q).searchResults.head?
        = s.messages.find? fun m => textIncludes m.text q) := by
  constructor
  · intro h
    simp [performSearch, h]
  · intro h
    have heq : performSearch s q =
        { s with
          searchResults := s.messages.filter fun m => textIncludes m.text q
          currentSearchIndex :=
            if (s.messages.filter fun m => textIncludes m.text q).length > 0
            then 0 else -1 } := by
      simp [performSearch, h]
    rw [heq]
    refine ⟨?_, ?_, ?_⟩
    · intro m
      exact List.mem_filter
    · intro hne
      have hpos : 0 < (s.messages.filter fun m => textIncludes m.text q).length :=
        List.length_pos.mpr hne
      exact if_pos hpos
    · exact head?_filter_eq_find? _ _

/-- Fixture messages for the search witness. -/
def helpMsg1 : Message :=
  { id := MsgId.seed 2, senderId := "b1", text := "Help me with the docs",
    timestamp := 11, reactions := [], status := DeliveryState.sent }

/-- Fixture message matching with mixed case. -/
def helpMsg2 : Message :=
  { id := MsgId.seed 3, senderId := "d1", text := "I can hElP later",
    timestamp := 12, reactions := [], status := DeliveryState.sent }

/-- Fixture message with no match. -/
def offMsg : Message :=
  { id := MsgId.seed 4, senderId := "b1", text := "nothing here",
    timestamp := 13, reactions := [], status := DeliveryState.sent }

/-- Fixture state with a stale prior search selection. -/
def searchState : ChatState :=
  { baseState with
    messages := [helpMsg1, helpMsg2, offMsg]
    searchResults := [offMsg]
    currentSearchIndex := 0 }

/-- Witness for C7: the rules instantiated at the query `help` and at the
whitespace query against a state holding a stale prior result set. -/
theorem search_rules_witness :
    ((jsTrim "help" = "" → (performSearch searchState "help").searchResults = [] ∧
        (performSearch searchState "help").currentSearchIndex = -1) ∧
     (jsTrim "help" ≠ "" →
        (∀ m, m ∈ (performSearch searchState "help").searchResults ↔
          m ∈ searchState.messages ∧ textIncludes m.text "help" = true) ∧
        ((performSearch searchState "help").searchResults ≠ [] →
          (performSearch searchState "help").currentSearchIndex = 0) ∧
        (performSearch searchState "help").searchResults.head?
          = searchState.messages.find? fun m => textIncludes m.text "help")) ∧
    ((jsTrim "  " = "" → (performSearch searchState "  ").searchResults = [] ∧
        (performSearch searchState "  ").currentSearchIndex = -1) ∧
     (jsTrim "  " ≠ "" →
        (∀ m, m ∈ (performSearch searchState "  ").searchResults ↔
          m ∈ searchState.messages ∧ textIncludes m.text "  " = true) ∧
        ((performSearch searchState "  ").searchResults ≠ [] →
          (performSearch searchState "  ").currentSearchIndex = 0) ∧
        (performSearch searchState "  ").searchResults.head?
          = searchState.messages.find? fun m => textIncludes m.text "  ")) :=
  ⟨search_rules searchState "help", search_rules searchState "  "⟩

/-- C8: around a reaction toggle performed while the viewport is not at
the bottom, every retry of the `restoreScroll` closure writes the
pre-mutation offset plus the content-height delta; whenever the height
changed at all this differs from the unchanged initial offset (and the
handler issues no scroll-to-end request on this path, only this offset
assignment). -/
theorem scroll_restore_offset (p hOld hNew : Int) (hd : hNew ≠ hOld) :
    restoreScroll p hOld hNew = p + (hNew - hOld) ∧
    restoreScroll p hOld hNew ≠ p := by
  refine ⟨rfl, ?_⟩
  rw [restoreScroll]
  intro h
  apply hd
  omega

/-- Witness for C8 at concrete offsets: height grows from 220 to 250. -/
theorem scroll_restore_offset_witness :
    ((250 : Int) ≠ 220) ∧
    (restoreScroll 100 220 250 = 100 + (250 - 220) ∧
      restoreScroll 100 220 250 ≠ 100) :=
  ⟨by decide, scroll_restore_offset 100 220 250 (by decide)⟩

/-! ## Log invariant under interleavings of sends and simulator replies -/

/-- Distinctness of a fresh id from every strictly older id. -/
theorem idTime_lt_ne_eq (i j : MsgId) (t : Nat)
    (hi : idTimeLt i t) (hj : idTimeEq j t) : i ≠ j := by
  intro h
  subst h
  cases i
  case seed n => simp [idTimeEq] at hj
  case sendId t2 r =>
      simp [idTimeLt, idTimeEq] at hi hj
      omega
  case responseId t2 =>
      simp [idTimeLt, idTimeEq] at hi hj
      omega

/-- An id whose clock payload equals `t` lies strictly below any later
clock value. -/
theorem idTimeEq_lt (i : MsgId) (t t2 : Nat) (h : idTimeEq i t) (hlt : t < t2) :
    idTimeLt i t2 := by
  cases i
  case seed n => trivial
  case sendId a r =>
      simp [idTimeEq] at h
      simp [idTimeLt]
      omega
  case responseId a =>
      simp [idTimeEq] at h
      simp [idTimeLt]
      omega

/-- One event either leaves the log unchanged or appends exactly one
message whose timestamp and id clock payload equal the clock value the
event read. -/
theorem applyEvent_messages (s : ChatState) (e : SimEvent) :
    (applyEvent s e).messages = s.messages ∨
    ∃ nm, (applyEvent s e).messages = s.messages ++ [nm] ∧
      nm.timestamp = evTime e ∧ idTimeEq nm.id (evTime e) := by
  cases e with
  | localSend now rand text =>
      cases hcu : s.currentUser with
      | none =>
          left
          simp [applyEvent, handleSendMessage, hcu]
      | some cu =>
          by_cases hm : s.isMounted
          · right
            refine ⟨newMessage cu.id text now rand, ?_, rfl, rfl⟩
            simp [applyEvent, handleSendMessage, hcu, hm, updateUserTypingStatus]
          · left
            simp [applyEvent, handleSendMessage, hcu, hm]
  | simReply now rid len =>
      by_cases hm : s.isMounted
      · right
        refine ⟨{ id := MsgId.responseId now
                  senderId := rid
                  text := responses.getD (len % responses.length) ""
                  timestamp := now
                  reactions := []
                  status := DeliveryState.sent }, ?_, rfl, rfl⟩
        simp [applyEvent, simReplyCallback, hm, updateUserTypingStatus]
      · left
        simp [applyEvent, simReplyCallback, hm]

/-- C9 counterexample: two local sends performed in the same millisecond
and drawing the same random suffix generate the same id string twice, so
uniqueness of ids does not hold over every interleaving. -/
theorem log_ids_cex :
    msgIds (runEvents baseState
      [SimEvent.localSend 5 7 "hi", SimEvent.localSend 5 7 "again"])
      = [MsgId.sendId 5 7, MsgId.sendId 5 7] ∧
    ¬ (msgIds (runEvents baseState
      [SimEvent.localSend 5 7 "hi", SimEvent.localSend 5 7 "again"])).Nodup := by
  decide

/-- C9 amended: over every interleaving of local sends and simulator
replies whose clock reads strictly increase (so no two appends share a
millisecond) and stay above the log already present, message ids remain
pairwise distinct and the creation timestamps of the log remain
monotonically non-decreasing in append order. -/
theorem log_ids_unique_and_times_monotone (s : ChatState) (es : List SimEvent)
    (h1 : (msgIds s).Nodup)
    (h2 : List.Pairwise (fun a b => a ≤ b) (msgTimes s))
    (h3 : ∀ m ∈ s.messages, ∀ e ∈ es, idTimeLt m.id (evTime e) ∧ m.timestamp ≤ evTime e)
    (h4 : List.Pairwise (fun a b => evTime a < evTime b) es) :
    (msgIds (runEvents s es)).Nodup ∧
    List.Pairwise (fun a b => a ≤ b) (msgTimes (runEvents s es)) := by
  induction es generalizing s with
  | nil => exact ⟨h1, h2⟩
  | cons e rest ih =>
      have hrun : runEvents s (e :: rest) = runEvents (applyEvent s e) rest := rfl
      rw [hrun]
      obtain ⟨hhead, htail⟩ := List.pairwise_cons.mp h4
      rcases applyEvent_messages s e with hsame | ⟨nm, happ, hts, hid⟩
      · apply ih
        · show ((applyEvent s e).messages.map Message.id).Nodup
          rw [hsame]
          exact h1
        · show List.Pairwise _ ((applyEvent s e).messages.map Message.timestamp)
          rw [hsame]
          exact h2
        · intro m hm e2 he2
          rw [hsame] at hm
          exact h3 m hm e2 (List.mem_cons_of_mem e he2)
        · exact htail
      · apply ih
        · show ((applyEvent s e).messages.map Message.id).Nodup
          rw [happ, List.map_append, List.nodup_append]
          refine ⟨h1, by simp, ?_⟩
          intro a ha hb
          simp only [List.map_cons, List.map_nil, List.mem_singleton] at hb
          simp only [List.mem_map] at ha
          obtain ⟨m, hm, hma⟩ := ha
          have hlt := (h3 m hm e (List.mem_cons_self e rest)).1
          exact idTime_lt_ne_eq m.id nm.id (evTime e) hlt hid (hma.trans hb)
        · show List.Pairwise _ ((applyEvent s e).messages.map Message.timestamp)
          rw [happ, List.map_append, List.pairwise_append]
          refine ⟨h2, by simp, ?_⟩
          intro a ha b hb
          simp only [List.map_cons, List.map_nil, List.mem_singleton] at hb
          simp only [List.mem_map] at ha
          obtain ⟨m, hm, hma⟩ := ha
          have hle := (h3 m hm e (List.mem_cons_self e rest)).2
          rw [hma] at hle
          rw [hb, hts]
          exact hle
        · intro m hm e2 he2
          rw [happ] at hm
          rcases List.mem_append.mp hm with hold | hnew
          · exact h3 m hold e2 (List.mem_cons_of_mem e he2)
          · have hmn : m = nm := by simpa using hnew
            subst hmn
            refine ⟨idTimeEq_lt m.id (evTime e) (evTime e2) hid (hhead e2 he2), ?_⟩
            rw [hts]
            exact le_of_lt (hhead e2 he2)
        · exact htail

/-- Witness for the amended C9: a send at clock 5 followed by a simulator
reply at clock 9 from the empty seeded log. -/
theorem log_ids_unique_and_times_monotone_witness :
    ((msgIds baseState).Nodup ∧
     List.Pairwise (fun a b => a ≤ b) (msgTimes baseState) ∧
     (∀ m ∈ baseState.messages,
        ∀ e ∈ ([SimEvent.localSend 5 7 "hi", SimEvent.simReply 9 "b1" 1] : List SimEvent),
          idTimeLt m.id (evTime e) ∧ m.timestamp ≤ evTime e) ∧
     List.Pairwise (fun a b => evTime a < evTime b)
       [SimEvent.localSend 5 7 "hi", SimEvent.simReply 9 "b1" 1]) ∧
    ((msgIds (runEvents baseState
        [SimEvent.localSend 5 7 "hi", SimEvent.simReply 9 "b1" 1])).Nodup ∧
     List.Pairwise (fun a b => a ≤ b) (msgTimes (runEvents baseState
        [SimEvent.localSend 5 7 "hi", SimEvent.simReply 9 "b1" 1]))) :=
  ⟨⟨by decide, by decide, by simp [baseState], by
      simp [List.pairwise_cons, evTime]⟩,
    log_ids_unique_and_times_monotone baseState
      [SimEvent.localSend 5 7 "hi", SimEvent.simReply 9 "b1" 1]
      (by decide) (by decide) (by simp [baseState])
      (by simp [List.pairwise_cons, evTime])⟩

/-! ## Reaction keys -/

/-- A key reading a reaction after a toggle is the toggling key or already
read one before. -/
theorem rLookup_toggleReactions_keys (R : List (String × String)) (uid emoji k : String)
    (h : rLookup (toggleReactions R uid emoji) k ≠ none) :
    k = uid ∨ rLookup R k ≠ none := by
  by_cases hk : k = uid
  · exact Or.inl hk
  · right
    by_cases hc : rLookup R uid = some emoji
    · rw [toggleReactions, if_pos hc, rLookup_removeReaction, if_neg hk] at h
      exact h
    · rw [toggleReactions, if_neg hc, rLookup_setReaction_other _ _ _ _ hk] at h
      exact h

/-- C10: every reaction entry added by the user toggle path and by the
delayed simulator reaction step is keyed by the id of the local
participant at the time of the call: after either operation, any key
holding a reaction on any message either already held one on some message
of the prior state, or is the id of the current local participant.  In
particular the simulator reaction to the most recent local message lands
under the local participant id, never under the id of the responding
simulated peer. -/
theorem reactions_keyed_by_local_user (s : ChatState) (cu : User)
    (hcu : s.currentUser = some cu) :
    (∀ mid emoji, ∀ m2 ∈ (handleEmojiReaction s mid emoji).messages, ∀ k,
      rLookup m2.reactions k ≠ none →
      k = cu.id ∨ ∃ m ∈ s.messages, rLookup m.reactions k ≠ none) ∧
    (∀ cap cid, ∀ m2 ∈ (simReactionCallback s cap cid).messages, ∀ k,
      rLookup m2.reactions k ≠ none →
      k = cu.id ∨ ∃ m ∈ s.messages, rLookup m.reactions k ≠ none) := by
  have hmain : ∀ mid emoji, ∀ m2 ∈ (handleEmojiReaction s mid emoji).messages, ∀ k,
      rLookup m2.reactions k ≠ none →
      k = cu.id ∨ ∃ m ∈ s.messages, rLookup m.reactions k ≠ none := by
    intro mid emoji m2 hm2 k hk
    rw [handleEmojiReaction_msgs s cu mid emoji hcu] at hm2
    simp only [List.mem_map] at hm2
    obtain ⟨m, hm, rfl⟩ := hm2
    rw [applyReaction] at hk
    by_cases h : m.id = mid
    · rw [if_pos h] at hk
      rcases rLookup_toggleReactions_keys m.reactions cu.id emoji k hk with h1 | h1
      · exact Or.inl h1
      · exact Or.inr ⟨m, hm, h1⟩
    · rw [if_neg h] at hk
      exact Or.inr ⟨m, hm, hk⟩
  refine ⟨hmain, ?_⟩
  intro cap cid m2 hm2 k hk
  rw [simReactionCallback] at hm2
  by_cases hmt : s.isMounted
  · rw [if_pos hmt] at hm2
    cases hfind : cap.reverse.find? (fun m => decide (m.senderId = cid)) with
    | none =>
        rw [hfind] at hm2
        exact Or.inr ⟨m2, hm2, hk⟩
    | some um =>
        rw [hfind] at hm2
        exact hmain um.id _ m2 hm2 k hk
  · rw [if_neg hmt] at hm2
    exact Or.inr ⟨m2, hm2, hk⟩

/-- Witness for C10 at a concrete state holding one reacted message. -/
theorem reactions_keyed_by_local_user_witness :
    reactState.currentUser = some danaUser ∧
    ((∀ mid emoji, ∀ m2 ∈ (handleEmojiReaction reactState mid emoji).messages, ∀ k,
        rLookup m2.reactions k ≠ none →
        k = danaUser.id ∨ ∃ m ∈ reactState.messages, rLookup m.reactions k ≠ none) ∧
     (∀ cap cid, ∀ m2 ∈ (simReactionCallback reactState cap cid).messages, ∀ k,
        rLookup m2.reactions k ≠ none →
        k = danaUser.id ∨ ∃ m ∈ reactState.messages, rLookup m.reactions k ≠ none)) :=
  ⟨rfl, reactions_keyed_by_local_user reactState danaUser rfl⟩

end ChatConnect
